import Mathlib

/-!
Verification of the song-query engine of pacer.py (GetSongBPMClient).

The definitions below are a shallow embedding of GetSongBPMClient.search_songs:
the query-builder part (lines 83-93 of pacer.py) and the result-filter part
(lines 101-118), together with the transport-failure handling (lines 95, 120-122).
Python floats are modelled as rationals; Python Optional values as Option;
Python truthiness of an optional string or float is modelled explicitly.
-/

namespace Pacer

/-- A song record, as consumed by the client-side filter of search_songs.
Only the fields the filter inspects are modelled: genre and danceability,
both optional, mirroring song.get with a default. -/
structure Song where
  genre : Option String := none
  danceability : Option ℚ := none
  deriving Repr, DecidableEq

/-- The parameters of search_songs, with the Python default values
(bpm=180, bpm_tolerance=5, limit=20, all filters None). -/
structure QuerySpec where
  bpm : Int := 180
  bpm_tolerance : Int := 5
  genre : Option String := none
  artist : Option String := none
  danceability_min : Option ℚ := none
  danceability_max : Option ℚ := none
  limit : Nat := 20
  deriving Repr, DecidableEq

/-- Python truthiness of an Optional[str]: None and the empty string are falsy. -/
def strTruthy : Option String → Bool
  | none => false
  | some s => s != ""

/-- Python truthiness of an Optional[float]: None and 0 are falsy. -/
def ratTruthy : Option ℚ → Bool
  | none => false
  | some x => x != 0

/-- The upstream endpoint chosen by search_songs: either the artist-scoped
tempo endpoint /artist/{artist}/tempo/{bpm_min}/{bpm_max}/ or the general
tempo-range endpoint /tempo/{bpm_min}/{bpm_max}/. -/
inductive Endpoint where
  | artistTempo (artist : String) (bpm_min bpm_max : Int)
  | tempo (bpm_min bpm_max : Int)
  deriving Repr, DecidableEq

/-- The BPM range carried by an endpoint, whichever shape it has. -/
def Endpoint.bpmRange : Endpoint → Int × Int
  | Endpoint.artistTempo _ lo hi => (lo, hi)
  | Endpoint.tempo lo hi => (lo, hi)

/-- Whether an endpoint is the artist-scoped one. -/
def Endpoint.isArtistScoped : Endpoint → Bool
  | Endpoint.artistTempo _ _ _ => true
  | Endpoint.tempo _ _ => false

/-- Lines 83-91 of pacer.py: compute bpm_min = bpm - bpm_tolerance and
bpm_max = bpm + bpm_tolerance, then pick the artist-scoped endpoint when
the artist argument is truthy and the general endpoint otherwise. -/
def build_endpoint (spec : QuerySpec) : Endpoint :=
  let bpm_min := spec.bpm - spec.bpm_tolerance
  let bpm_max := spec.bpm + spec.bpm_tolerance
  if strTruthy spec.artist then
    Endpoint.artistTempo (spec.artist.getD "") bpm_min bpm_max
  else
    Endpoint.tempo bpm_min bpm_max

/-- Line 105 of pacer.py: the genre check of the loop body. The record is
dropped when the genre argument is truthy and the lowercased record genre
(missing genre read as the empty string) differs from the lowercased filter. -/
def genrePasses (genre : Option String) (song : Song) : Bool :=
  !(strTruthy genre && ((song.genre.getD "").toLower != (genre.getD "").toLower))

/-- Lines 108-114 of pacer.py: the danceability checks of the loop body.
Entered only when a bound is not None; the record danceability defaults to 0
when missing; each bound is enforced only when it is truthy (nonzero). -/
def danceabilityPasses (dmin dmax : Option ℚ) (song : Song) : Bool :=
  if dmin.isSome || dmax.isSome then
    let danceability := song.danceability.getD 0
    if ratTruthy dmin && decide (danceability < dmin.getD 0) then false
    else if ratTruthy dmax && decide (dmax.getD 0 < danceability) then false
    else true
  else true

/-- The whole loop body (lines 103-116 of pacer.py): a song is appended to
filtered_songs exactly when no continue fires. -/
def keepSong (spec : QuerySpec) (song : Song) : Bool :=
  genrePasses spec.genre song &&
    danceabilityPasses spec.danceability_min spec.danceability_max song

/-- Lines 101-118 of pacer.py: the Result Filter. One pass over the songs
keeping those that satisfy the predicates, then truncation to limit. -/
def filterSongs (spec : QuerySpec) (songs : List Song) : List Song :=
  (songs.filter (keepSong spec)).take spec.limit

/-- Lines 95-122 of pacer.py: search_songs applied to the outcome of the
transport call. A successful response is filtered; a transport-level error
is swallowed (only printed) and yields the empty list. -/
def search_songs (spec : QuerySpec) (response : Except String (List Song)) :
    List Song :=
  match response with
  | Except.ok songs => filterSongs spec songs
  | Except.error _ => []

/-- C2: for every integer bpm and every non-negative integer tolerance, the
BPM range embedded in the chosen upstream endpoint is exactly
[bpm - tolerance, bpm + tolerance]. -/
theorem bpm_range_exact (spec : QuerySpec) (h : 0 ≤ spec.bpm_tolerance) :
    (build_endpoint spec).bpmRange =
      (spec.bpm - spec.bpm_tolerance, spec.bpm + spec.bpm_tolerance) := by
  unfold build_endpoint
  split
  · rfl
  · rfl

/-- C2 witness: at bpm 180 and tolerance 5 the endpoint carries the range
[175, 185]. -/
theorem bpm_range_exact_witness :
    (build_endpoint { bpm := 180, bpm_tolerance := 5 }).bpmRange = (175, 185) := by
  simpa using bpm_range_exact { bpm := 180, bpm_tolerance := 5 } (by decide)

/-- C1 counterexample: a QuerySpec whose artist filter is set to the empty
string has an artist filter set, yet build_endpoint selects the general
tempo-range endpoint, because the Python code tests truthiness, not presence. -/
theorem artist_endpoint_cex :
    (({ artist := some "" } : QuerySpec)).artist.isSome = true ∧
    (build_endpoint { artist := some "" }).isArtistScoped = false := by
  constructor
  · rfl
  · decide

/-- C1 (amended): for every QuerySpec whose artist filter is set to a
nonempty string, search_songs targets the artist-scoped tempo endpoint for
the computed range; for every QuerySpec without an artist filter, it targets
the general tempo-range endpoint. -/
theorem artist_endpoint_selection (spec : QuerySpec) :
    (∀ a, spec.artist = some a → a ≠ "" →
      build_endpoint spec =
        Endpoint.artistTempo a (spec.bpm - spec.bpm_tolerance)
          (spec.bpm + spec.bpm_tolerance)) ∧
    (spec.artist = none →
      build_endpoint spec =
        Endpoint.tempo (spec.bpm - spec.bpm_tolerance)
          (spec.bpm + spec.bpm_tolerance)) := by
  constructor
  · intro a ha hne
    unfold build_endpoint
    simp [strTruthy, ha, hne]
  · intro ha
    unfold build_endpoint
    simp [strTruthy, ha]

/-- C1 witness: a nonempty artist at bpm 180, tolerance 10 yields the
artist-scoped endpoint with range [170, 190]. -/
theorem artist_endpoint_selection_witness :
    build_endpoint { artist := some "Daft Punk", bpm := 180, bpm_tolerance := 10 } =
      Endpoint.artistTempo "Daft Punk" 170 190 := by
  simpa using
    (artist_endpoint_selection
      { artist := some "Daft Punk", bpm := 180, bpm_tolerance := 10 }).1
      "Daft Punk" rfl (by decide)

/-- C10: an empty-string artist is routed to the general tempo-range
endpoint exactly as if no artist had been supplied, and the endpoint is the
general one precisely when the artist is None or the empty string. -/
theorem empty_artist_general (spec : QuerySpec) :
    build_endpoint { spec with artist := some "" } =
      build_endpoint { spec with artist := none } ∧
    ((∃ lo hi, build_endpoint spec = Endpoint.tempo lo hi) ↔
      (spec.artist = none ∨ spec.artist = some "")) := by
  constructor
  · rfl
  · unfold build_endpoint
    cases ha : spec.artist with
    | none => simp [strTruthy]
    | some a =>
      by_cases he : a = ""
      · subst he
        simp [strTruthy]
      · simp [strTruthy, he]

/-- C10 witness: the two routings agree at the default QuerySpec. -/
theorem empty_artist_general_witness :
    build_endpoint { ({} : QuerySpec) with artist := some "" } =
      build_endpoint { ({} : QuerySpec) with artist := none } :=
  (empty_artist_general {}).1

/-- C8: whatever QuerySpec is in play, a transport-level failure of the
upstream call makes search_songs return the empty list instead of raising. -/
theorem transport_error_empty (spec : QuerySpec) (e : String) :
    search_songs spec (Except.error e) = [] := rfl

/-- C9: with a danceability lower bound set, a record whose danceability is
exactly 0 gets the same keep or exclude decision as the same record with the
danceability field missing, because both read back as 0 under the default. -/
theorem zero_danceability_eq_missing (spec : QuerySpec) (song : Song)
    (h : spec.danceability_min.isSome = true) :
    keepSong spec { song with danceability := some 0 } =
      keepSong spec { song with danceability := none } := rfl

/-- C9 witness: with lower bound 0.7, the zero-danceability record and the
missing-danceability record are filtered identically. -/
theorem zero_danceability_eq_missing_witness :
    keepSong { danceability_min := some (7/10) } { danceability := some 0 } =
      keepSong { danceability_min := some (7/10) } { danceability := none } :=
  zero_danceability_eq_missing { danceability_min := some (7/10) } {} rfl

/-- Lowercasing a string yields the empty string exactly for the empty string,
since String.toLower maps the characters one for one. -/
theorem toLower_empty_iff (s : String) : s.toLower = "" ↔ s = "" := by
  rw [String.toLower, String.map_eq]
  constructor
  · intro h
    have hd : s.data.map Char.toLower = [] := congrArg String.data h
    exact String.ext (List.map_eq_nil_iff.mp hd)
  · intro h
    subst h
    rfl

/-- With a truthy genre filter, the genre check keeps a record exactly when
the lowercased record genre (missing read as the empty string) equals the
lowercased filter. -/
theorem genrePasses_iff (g : String) (song : Song) (hg : g ≠ "") :
    genrePasses (some g) song = true ↔
      (song.genre.getD "").toLower = g.toLower := by
  simp [genrePasses, strTruthy, hg]

/-- With a truthy genre filter, a record with no genre field fails the genre
check. -/
theorem genrePasses_missing (g : String) (song : Song) (hg : g ≠ "")
    (hnone : song.genre = none) : genrePasses (some g) song = false := by
  cases hb : genrePasses (some g) song
  · rfl
  · exfalso
    have h1 := (genrePasses_iff g song hg).mp hb
    rw [hnone] at h1
    have h0 : ("".toLower : String) = "" := by
      rw [String.toLower, String.map_eq]
      rfl
    simp only [Option.getD_none, h0] at h1
    exact hg ((toLower_empty_iff g).mp h1.symm)

/-- C3 counterexample: a QuerySpec whose genre filter is set to the empty
string has a genre filter set, yet the Result Filter retains a record whose
genre does not match it, because the Python code tests truthiness of the
filter before comparing. -/
theorem genre_filter_cex :
    filterSongs { genre := some "" } [ { genre := some "Pop" } ] =
      [ { genre := some "Pop" } ] ∧
    "Pop".toLower ≠ "".toLower := by
  constructor
  · decide
  · rw [String.toLower, String.toLower, String.map_eq, String.map_eq]
    decide

/-- C3 (amended): for every nonempty genre filter, the genre check of the
Result Filter retains a record exactly when the record genre, compared
case-insensitively, equals the filter; a record with no genre field is
excluded; and the spec example with filter rock against Rock and Pop yields
exactly the first record. -/
theorem genre_filter_semantics :
    (∀ (g : String) (song : Song), g ≠ "" →
      (genrePasses (some g) song = true ↔
        (song.genre.getD "").toLower = g.toLower)) ∧
    (∀ (g : String) (song : Song), g ≠ "" → song.genre = none →
      genrePasses (some g) song = false) ∧
    filterSongs { bpm := 180, bpm_tolerance := 5, genre := some "rock" }
        [ { genre := some "Rock", danceability := some (mkRat 1 2) },
          { genre := some "Pop" } ] =
      [ { genre := some "Rock", danceability := some (mkRat 1 2) } ] := by
  refine ⟨genrePasses_iff, genrePasses_missing, ?_⟩
  have h1 : keepSong { bpm := 180, bpm_tolerance := 5, genre := some "rock" }
      { genre := some "Rock", danceability := some (mkRat 1 2) } = true := by
    simp only [keepSong, genrePasses, danceabilityPasses, strTruthy, ratTruthy,
      String.toLower, String.map_eq]
    decide
  have h2 : keepSong { bpm := 180, bpm_tolerance := 5, genre := some "rock" }
      { genre := some "Pop" } = false := by
    simp only [keepSong, genrePasses, danceabilityPasses, strTruthy, ratTruthy,
      String.toLower, String.map_eq]
    decide
  simp [filterSongs, h1, h2]

/-- C3 witness: the Rock record passes the rock genre check. -/
theorem genre_filter_semantics_witness :
    genrePasses (some "rock")
      { genre := some "Rock", danceability := some (mkRat 1 2) } = true :=
  (genre_filter_semantics.1 "rock"
      { genre := some "Rock", danceability := some (mkRat 1 2) }
      (by decide)).mpr
    (by
      show "Rock".toLower = "rock".toLower
      rw [String.toLower, String.toLower, String.map_eq, String.map_eq]
      rfl)

/-- With a truthy (nonzero) lower bound, a record that passes the
danceability checks has danceability (missing read as 0) at least the bound. -/
theorem danceabilityPasses_min_le (m : ℚ) (dmax : Option ℚ) (song : Song)
    (hm : m ≠ 0)
    (h : danceabilityPasses (some m) dmax song = true) :
    m ≤ song.danceability.getD 0 := by
  by_contra hlt
  push_neg at hlt
  simp [danceabilityPasses, ratTruthy, hm, hlt] at h

/-- With a truthy (nonzero) upper bound, a record that passes the
danceability checks has danceability (missing read as 0) at most the bound. -/
theorem danceabilityPasses_max_le (dmin : Option ℚ) (M : ℚ) (song : Song)
    (hM : M ≠ 0)
    (h : danceabilityPasses dmin (some M) song = true) :
    song.danceability.getD 0 ≤ M := by
  by_contra hlt
  push_neg at hlt
  simp [danceabilityPasses, ratTruthy, hM, hlt] at h

/-- C4: with a danceability lower bound set, every record the Result Filter
retains whose danceability (if present) lies in [0,1] has effective
danceability (missing read as 0) at least the bound; and the spec example
with lower bound 0.7 against 0.8, 0.5 and missing yields only the first
record. -/
theorem danceability_min_necessary :
    (∀ (spec : QuerySpec) (songs : List Song) (song : Song) (m : ℚ),
      spec.danceability_min = some m →
      (∀ x, song.danceability = some x → 0 ≤ x ∧ x ≤ 1) →
      song ∈ filterSongs spec songs →
      m ≤ song.danceability.getD 0) ∧
    filterSongs { danceability_min := some (mkRat 7 10) }
        [ { danceability := some (mkRat 8 10) },
          { danceability := some (mkRat 1 2) }, {} ] =
      [ { danceability := some (mkRat 8 10) } ] := by
  constructor
  · intro spec songs song m hmin hrange hmem
    rw [filterSongs] at hmem
    have hpass := (List.mem_filter.mp (List.take_subset _ _ hmem)).2
    rw [keepSong, Bool.and_eq_true] at hpass
    have hd := hpass.2
    rw [hmin] at hd
    by_cases hm : m = 0
    · subst hm
      cases hds : song.danceability with
      | none => simp [hds]
      | some x =>
        simp only [hds, Option.getD_some]
        exact (hrange x hds).1
    · exact danceabilityPasses_min_le m spec.danceability_max song hm hd
  · decide

/-- C4 witness: with lower bound 0.7, the retained 0.8 record satisfies the
bound. -/
theorem danceability_min_necessary_witness :
    mkRat 7 10 ≤
      (Song.danceability { danceability := some (mkRat 8 10) }).getD 0 :=
  danceability_min_necessary.1 { danceability_min := some (mkRat 7 10) }
    [ { danceability := some (mkRat 8 10) } ]
    { danceability := some (mkRat 8 10) } (mkRat 7 10) rfl
    (fun x hx => by
      rw [Option.some_inj] at hx
      subst hx
      exact ⟨by decide, by decide⟩)
    (by decide)

/-- C5 counterexample: an upper bound of exactly 0 lies in [0,1] and is set,
yet the Result Filter retains a record whose danceability 0.5 exceeds it,
because the Python code tests truthiness of the bound and 0 is falsy. -/
theorem danceability_max_cex :
    filterSongs { danceability_max := some 0 }
        [ { danceability := some (mkRat 1 2) } ] =
      [ { danceability := some (mkRat 1 2) } ] ∧
    ¬ ((Song.danceability { danceability := some (mkRat 1 2) }).getD 0 ≤
        (0 : ℚ)) := by
  constructor
  · decide
  · decide

/-- C5 (amended): for every QuerySpec whose danceability upper bound is set
to a nonzero value (so any value in (0,1]), every record the Result Filter
retains has danceability (missing read as 0) at most the bound. -/
theorem danceability_max_necessary (spec : QuerySpec) (songs : List Song)
    (song : Song) (M : ℚ) (hmax : spec.danceability_max = some M)
    (hM : M ≠ 0) (hmem : song ∈ filterSongs spec songs) :
    song.danceability.getD 0 ≤ M := by
  rw [filterSongs] at hmem
  have hpass := (List.mem_filter.mp (List.take_subset _ _ hmem)).2
  rw [keepSong, Bool.and_eq_true] at hpass
  have hd := hpass.2
  rw [hmax] at hd
  exact danceabilityPasses_max_le spec.danceability_min M song hM hd

/-- C5 witness: with upper bound 0.9, the retained 0.5 record satisfies the
bound. -/
theorem danceability_max_necessary_witness :
    (Song.danceability { danceability := some (mkRat 1 2) }).getD 0 ≤
      mkRat 9 10 :=
  danceability_max_necessary { danceability_max := some (mkRat 9 10) }
    [ { danceability := some (mkRat 1 2) } ]
    { danceability := some (mkRat 1 2) } (mkRat 9 10) rfl (by decide)
    (by decide)

/-- C6: with a positive limit, the Result Filter returns at most limit
records and its output is a subsequence of its input, so surviving records
keep their original relative order through filtering and truncation. -/
theorem limit_and_order (spec : QuerySpec) (songs : List Song)
    (h : 0 < spec.limit) :
    (filterSongs spec songs).length ≤ spec.limit ∧
    List.Sublist (filterSongs spec songs) songs := by
  constructor
  · exact List.length_take_le _ _
  · exact (List.take_sublist _ _).trans (List.filter_sublist _)

/-- C6 witness: at the default QuerySpec over a one-record list. -/
theorem limit_and_order_witness :
    (filterSongs {} [ { genre := some "Rock" } ]).length ≤
      ({} : QuerySpec).limit ∧
    List.Sublist (filterSongs {} [ { genre := some "Rock" } ])
      [ { genre := some "Rock" } ] :=
  limit_and_order {} [ { genre := some "Rock" } ] (by decide)

/-- C7: the Result Filter is idempotent: filtering an already-filtered
sequence with the same QuerySpec returns it unchanged, since every surviving
record still passes the predicates and the survivors already number at most
limit. -/
theorem filter_idempotent (spec : QuerySpec) (songs : List Song) :
    filterSongs spec (filterSongs spec songs) = filterSongs spec songs := by
  simp only [filterSongs]
  have hall : ∀ s ∈ (songs.filter (keepSong spec)).take spec.limit,
      keepSong spec s = true :=
    fun s hs => List.of_mem_filter (List.take_subset _ _ hs)
  rw [List.filter_eq_self.mpr hall]
  exact List.take_of_length_le (List.length_take_le _ _)

end Pacer
